import Mathlib

/-!
# Order workflow, PayPal capture and client auth context

A shallow embedding of

* `backend/controllers/orderController.js` (`getAllOrders`, `getAllOrdersByUser`,
  `acceptOrder`, `deleteOrder`, `completeOrder`, `createNewOrder`),
* `backend/controllers/paypalController.js` (`capturePayment`),
* `client/src/store/authCtx.js` (`AuthContextProvider`, `loginHandler`,
  `clearStogeHandler`, `logoutHandler`),

followed by theorems about the embedded functions.

Conventions.  An Express middleware is a function from the parts of `req` it reads
to the value of `req.body` it leaves behind together with the way it hands control
on (`next()`, `next(err)`, or a thrown exception that `catchAsync` forwards).  The
database, the PayPal gateway and the remote logout call are external: their answers
are arguments of the embedded functions.
-/

set_option autoImplicit false

/-! ## JavaScript values -/

/-- JavaScript values as they occur in request bodies, gateway answers and the
auth context: `undefined`, `null`, booleans, integer-valued numbers, strings,
arrays and plain objects.  An `ObjectId` is represented by its hexadecimal
string, a `Date` by its epoch milliseconds. -/
inductive JVal where
  | undefined
  | null
  | bool (b : Bool)
  | num (n : Int)
  | str (s : String)
  | arr (items : List JVal)
  | obj (fields : List (String × JVal))

/-- A plain object: its own properties in insertion order. -/
abbrev Obj := List (String × JVal)

namespace JVal

/-- Truthiness (`ToBoolean`): what `if (v)`, `!v`, `v || d` and `v ? a : b` test. -/
def truthy : JVal → Bool
  | undefined => false
  | null => false
  | bool b => b
  | num n => n != 0
  | str s => s != ""
  | arr _ => true
  | obj _ => true

/-- Strict equality `v === 'lit'` with a string literal. -/
def strictEqStr : JVal → String → Bool
  | str s, lit => s == lit
  | _, _ => false

mutual
/-- String conversion `String(v)`, as applied by `localStorage.setItem`. -/
def toStr : JVal → String
  | undefined => "undefined"
  | null => "null"
  | bool b => if b then "true" else "false"
  | num n => toString n
  | str s => s
  | arr items => joinStr items
  | obj _ => "[object Object]"
/-- The comma-separated rendering `Array.prototype.join` gives an array. -/
def joinStr : List JVal → String
  | [] => ""
  | [x] => elemStr x
  | x :: y :: rest => elemStr x ++ "," ++ joinStr (y :: rest)
/-- One array element inside `join`: `undefined` and `null` render empty. -/
def elemStr : JVal → String
  | undefined => ""
  | null => ""
  | bool b => if b then "true" else "false"
  | num n => toString n
  | str s => s
  | arr items => joinStr items
  | obj _ => "[object Object]"
end

end JVal

namespace Obj

/-- Property read `o.k` on a plain object: `undefined` when `k` is not an own key. -/
def get (o : Obj) (k : String) : JVal :=
  match o.lookup k with
  | some v => v
  | none => JVal.undefined

/-- Property write `o.k = v`, also the effect of `{...o, k: v}`: every other
property keeps its value and `k` now holds `v`. -/
def set (o : Obj) (k : String) (v : JVal) : Obj :=
  o.filter (fun p => p.1 != k) ++ [(k, v)]

end Obj

namespace JVal

/-- Optional chaining `v?.k` for a key that is no built-in property of strings,
arrays, numbers or booleans (here `id`): `undefined` unless `v` is an object
owning `k`. -/
def optChain : JVal → String → JVal
  | obj fields, k => Obj.get fields k
  | _, _ => undefined

/-- Membership `lits.includes(v)` in an array of string literals. -/
def includedIn (v : JVal) (lits : List String) : Bool :=
  lits.any (fun lit => v.strictEqStr lit)

end JVal

/-! ## Shared backend types -/

/-- The operational error `new AppError(message, statusCode)`. -/
structure AppError where
  message : String
  statusCode : Nat
  deriving DecidableEq, Repr

/-- The authenticated requester `req.user`, as far as the controllers read it. -/
structure ReqUser where
  _id : String
  role : String
  deriving DecidableEq, Repr

/-- The nested path `paymentResult` of an order document.  `none` is an unset
(`undefined`) field. -/
structure PaymentResult where
  status : Option Bool
  id : Option String
  updateTime : Option Int
  deriving DecidableEq, Repr

/-- An order document as Mongoose hands it to the controller: the fields the
controllers read.  `user` is the owner's id, `createdAt` the creation time. -/
structure Order where
  user : String
  orderStatus : String
  paymentMethod : String
  paymentResult : Option PaymentResult
  createdAt : Nat
  deriving DecidableEq, Repr

/-- How a middleware hands control on. -/
inductive Next where
  | ok
  | err (e : AppError)
  | thrown (name : String)
  deriving DecidableEq, Repr

/-- What a middleware leaves behind: `req.body` and the call of `next`. -/
structure MwResult where
  body : Obj
  next : Next

/-! ## orderController.js -/

/-- The function `Math.ceil` on an exact quotient. -/
def mathCeil (x : ℚ) : ℤ := ⌈x⌉

/-- The function `Math.round`: nearest integer, halves rounded up. -/
def mathRound (x : ℚ) : ℤ := ⌊x + 1 / 2⌋

/-- The query string of the list endpoints.  `page` and `limit` hold the number
`req.query.x * 1` evaluates to; `none` stands for an absent or non-numeric
parameter (`NaN`). -/
structure OrderQuery where
  orderStatus : Option String
  paymentMethod : Option String
  sort : Option String
  page : Option Nat
  limit : Option Nat
  deriving DecidableEq, Repr

/-- The expression `req.query.x * 1 || d`. -/
def numberOr (x : Option Nat) (d : Nat) : Nat :=
  match x with
  | some n => if n = 0 then d else n
  | none => d

/-- Truthiness of an optional query-string parameter. -/
def paramGiven (x : Option String) : Bool :=
  match x with
  | some s => s != ""
  | none => false

/-- The JSON answer of `getAllOrders`. -/
structure OrdersResponse where
  statusCode : Nat
  status : String
  results : Nat
  totalPages : ℤ
  currentPage : Nat
  data : List Order

/-- The filter `query.find({ orderStatus: v })`. -/
def findByOrderStatus (v : String) (docs : List Order) : List Order :=
  docs.filter (fun o => o.orderStatus == v)

/-- The filter `query.find({ paymentMethod: v })`. -/
def findByPaymentMethod (v : String) (docs : List Order) : List Order :=
  docs.filter (fun o => o.paymentMethod == v)

/-- The ordering `query.sort('-createdAt')`: newest first. -/
def sortNewestFirst (docs : List Order) : List Order :=
  docs.insertionSort (fun a b => b.createdAt ≤ a.createdAt)

/-- The handler `getAllOrders` over the order collection `coll` (`populate` only joins
display fields and is left out). -/
def getAllOrders (coll : List Order) (query : OrderQuery) : OrdersResponse :=
  let q0 := coll
  let q1 := if paramGiven query.orderStatus then
      findByOrderStatus (query.orderStatus.getD "") q0 else q0
  let q2 := if paramGiven query.paymentMethod then
      findByPaymentMethod (query.paymentMethod.getD "") q1 else q1
  let q3 := if !paramGiven query.sort then sortNewestFirst q2 else q2
  let page := numberOr query.page 1
  let limit := numberOr query.limit 10
  let skip := (page - 1) * limit
  let orders := (q3.drop skip).take limit
  let total := coll.length
  let totalPages := mathCeil ((total : ℚ) / (limit : ℚ))
  { statusCode := 200
    status := "success"
    results := orders.length
    totalPages := totalPages
    currentPage := page
    data := orders }

/-- The page count of `getAllOrdersByUser`:
`total % limit === 0 ? total / limit : Math.round(total / limit + 0.5)`. -/
def totalPageByUser (total limit : Nat) : ℚ :=
  if total % limit = 0 then (total : ℚ) / (limit : ℚ)
  else (mathRound ((total : ℚ) / (limit : ℚ) + 1 / 2) : ℚ)

/-- The page count of `getAllOrders`: `Math.ceil(total / limit)`. -/
def totalPagesAll (total limit : Nat) : ℚ :=
  (mathCeil ((total : ℚ) / (limit : ℚ)) : ℚ)

/-- The middleware `acceptOrder`: sets `req.body.orderStatus` and calls `next()`. -/
def acceptOrder (body : Obj) : MwResult :=
  { body := body.set "orderStatus" (JVal.str "processing"), next := Next.ok }

/-- The middleware `deleteOrder`; `orderBeforUpdate` is the answer of `Order.findById`. -/
def deleteOrder (orderBeforUpdate : Option Order) (user : ReqUser) (body : Obj) :
    MwResult :=
  match orderBeforUpdate with
  | none => { body := body, next := Next.thrown "TypeError" }
  | some o =>
    if o.orderStatus = "fail" ∨ o.orderStatus = "done" then
      { body := body, next := Next.err ⟨"Cannot update completed order", 400⟩ }
    else if user.role = "user" ∧ o.orderStatus ≠ "new" then
      { body := body,
        next := Next.err ⟨"User cannot delete order after it was processing", 400⟩ }
    else if user.role = "user" ∧ ¬ (o.user = user._id) then
      { body := body,
        next := Next.err ⟨"User does not have owned to cancel this order", 400⟩ }
    else
      { body := body.set "orderStatus" (JVal.str "fail"), next := Next.ok }

/-- The guard of `completeOrder`,
`orderBeforUpdate.paymentMethod !== 'COD' && orderBeforUpdate.paymentResult.status === false`:
`none` when reading `.status` of an unset `paymentResult` throws; the right
operand is only evaluated when the left one holds. -/
def paymentOutstanding (o : Order) : Option Bool :=
  if o.paymentMethod ≠ "COD" then
    match o.paymentResult with
    | none => none
    | some pr => some (pr.status == some false)
  else some false

/-- The middleware `completeOrder`; `now` is `Date.now()`. -/
def completeOrder (orderBeforUpdate : Option Order) (body : Obj) (now : Int) :
    MwResult :=
  match orderBeforUpdate with
  | none => { body := body, next := Next.thrown "TypeError" }
  | some o =>
    if o.orderStatus = "fail" ∨ o.orderStatus = "done" then
      { body := body, next := Next.err ⟨"Cannot update completed order", 400⟩ }
    else
      match paymentOutstanding o with
      | none => { body := body, next := Next.thrown "TypeError" }
      | some true =>
        { body := body,
          next := Next.err ⟨"Please pay for the order through Paypal", 400⟩ }
      | some false =>
        { body := (body.set "paymentResult"
              (JVal.obj [("status", JVal.bool true), ("updateTime", JVal.num now)])).set
              "orderStatus" (JVal.str "done"),
          next := Next.ok }

/-- How an awaited promise settles. -/
inductive Settled where
  | fulfilled (value : JVal)
  | rejected (reason : JVal)

/-- How `createNewOrder` ends: `next(err)` with an `AppError` of its own, a
rejection of the awaited `Order.create` that `catchAsync` forwards to `next`
with no answer sent, or the JSON answer carrying the created order. -/
inductive CreateResult where
  | nextErr (e : AppError)
  | thrown (reason : JVal)
  | created (statusCode : Nat) (order : JVal)

/-- The document `{ ...req.body, user: req.user._id, orderStatus: 'new' }` that
`createNewOrder` hands to `Order.create`. -/
def newOrderDoc (user : ReqUser) (body : Obj) : Obj :=
  (body.set "user" (JVal.str user._id)).set "orderStatus" (JVal.str "new")

/-- The handler `createNewOrder`; `create` is `Order.create`, which settles with
the created order or rejects (schema validation, database failure). -/
def createNewOrder (create : Obj → Settled) (user : ReqUser) (body : Obj) :
    CreateResult :=
  if !(body.get "paymentMethod").truthy then
    CreateResult.nextErr ⟨"Payment method is required", 400⟩
  else if !(body.get "paymentMethod").includedIn ["COD", "PayPal"] then
    CreateResult.nextErr ⟨"Invalid payment method", 400⟩
  else if (body.get "paymentMethod").strictEqStr "PayPal"
      && !((body.get "paymentResult").optChain "id").truthy then
    CreateResult.nextErr ⟨"PayPal payment details required", 400⟩
  else
    match create (newOrderDoc user body) with
    | Settled.rejected reason => CreateResult.thrown reason
    | Settled.fulfilled order => CreateResult.created 201 order

/-! ## paypalController.js -/

namespace JVal

/-- Member access `v.k` for a key that is no built-in property (`result`,
`status`): `none` when `v` is `undefined` or `null` and the access throws. -/
def member : JVal → String → Option JVal
  | undefined, _ => none
  | null, _ => none
  | obj fields, k => some (Obj.get fields k)
  | _, _ => some undefined

end JVal

/-- How `capturePayment` ends: `next(err)` with an `AppError`, an exception
forwarded by `catchAsync`, or a JSON answer. -/
inductive PayResult where
  | nextErr (e : AppError)
  | thrown
  | json (statusCode : Nat) (status : String) (data : JVal)

/-- The handler `capturePayment`; `execute` is `client.execute` applied to the capture
request for the given order id. -/
def capturePayment (execute : JVal → Settled) (body : Obj) : PayResult :=
  let orderID := body.get "orderID"
  match execute orderID with
  | Settled.rejected _ => PayResult.thrown
  | Settled.fulfilled capture =>
    match capture.member "result" with
    | none => PayResult.thrown
    | some result =>
      match result.member "status" with
      | none => PayResult.thrown
      | some status =>
        if !status.strictEqStr "COMPLETED" then
          PayResult.nextErr ⟨"Payment failed", 400⟩
        else
          PayResult.json 200 "success" result

/-! ## authCtx.js -/

/-- The browser's `localStorage`: string keys, string values. -/
abbrev Storage := List (String × String)

namespace Storage

/-- The call `localStorage.getItem(k)`: the stored string, or `null`. -/
def getItem (s : Storage) (k : String) : JVal :=
  match s.lookup k with
  | some v => JVal.str v
  | none => JVal.null

/-- The call `localStorage.setItem(k, v)`: stores the string conversion of `v`. -/
def setItem (s : Storage) (k : String) (v : JVal) : Storage :=
  s.filter (fun p => p.1 != k) ++ [(k, v.toStr)]

/-- The call `localStorage.removeItem(k)`. -/
def removeItem (s : Storage) (k : String) : Storage :=
  s.filter (fun p => p.1 != k)

end Storage

/-- The six `useState` cells of `AuthContextProvider`. -/
structure AuthState where
  token : JVal
  email : JVal
  firstName : JVal
  lastName : JVal
  avatarUrl : JVal
  role : JVal

/-- The provider together with the storage it persists to and the console. -/
structure Client where
  state : AuthState
  storage : Storage
  console : List JVal

/-- The state `AuthContextProvider` mounts with: every cell starts from
`localStorage.getItem`. -/
def AuthContextProvider (storage : Storage) : AuthState :=
  let initToken := storage.getItem "token"
  let initEmail := storage.getItem "email"
  let initFirstName := storage.getItem "firstName"
  let initAvatarUrl := storage.getItem "avatarUrl"
  let initLastName := storage.getItem "lastName"
  let initRole := storage.getItem "role"
  { token := initToken
    email := initEmail
    firstName := initFirstName
    lastName := initLastName
    avatarUrl := initAvatarUrl
    role := initRole }

/-- The flag `userIsLoggedIn = token ? true : false`. -/
def userIsLoggedIn (st : AuthState) : Bool :=
  if st.token.truthy then true else false

/-- The function `loginHandler`: each cell is set and persisted in turn. -/
def loginHandler (c : Client) (token firstName lastName avatarUrl email role : JVal) :
    Client :=
  let st := { c.state with token := token }
  let sto := c.storage.setItem "token" token
  let st := { st with email := email }
  let sto := sto.setItem "email" email
  let st := { st with avatarUrl := avatarUrl }
  let sto := sto.setItem "avatarUrl" avatarUrl
  let st := { st with firstName := firstName }
  let sto := sto.setItem "firstName" firstName
  let st := { st with lastName := lastName }
  let sto := sto.setItem "lastName" lastName
  let st := { st with role := role }
  let sto := sto.setItem "role" role
  { c with state := st, storage := sto }

/-- The function `clearStogeHandler`: every cell becomes `null`, every key is removed. -/
def clearStogeHandler (c : Client) : Client :=
  let st : AuthState :=
    { firstName := JVal.null
      avatarUrl := JVal.null
      lastName := JVal.null
      email := JVal.null
      role := JVal.null
      token := JVal.null }
  let sto := c.storage.removeItem "firstName"
  let sto := sto.removeItem "lastName"
  let sto := sto.removeItem "email"
  let sto := sto.removeItem "avatarUrl"
  let sto := sto.removeItem "token"
  let sto := sto.removeItem "role"
  { c with state := st, storage := sto }

/-- The function `logoutHandler`, once the promise of `logoutUser()` has settled: `then`
clears, `catch` logs the error. -/
def logoutHandler (c : Client) (logoutUser : Settled) : Client :=
  match logoutUser with
  | Settled.fulfilled _ => clearStogeHandler c
  | Settled.rejected err => { c with console := c.console ++ [err] }

/-- The keys the auth context persists. -/
def authKeys : List String :=
  ["token", "email", "firstName", "lastName", "avatarUrl", "role"]


/-! ## Reading a created order back -/

/-- Modelled from the spec: `models/orderModel.js` (the schema behind
`Order.create` and `Order.findById`) is not part of the sources.  Following
"Creates order with status "new" owned by userId", the order document `o` read
back for a created document `doc` carries the document's owner, status and
payment method. -/
def Order.storedFrom (o : Order) (doc : Obj) : Prop :=
  doc.get "user" = JVal.str o.user ∧
  doc.get "orderStatus" = JVal.str o.orderStatus ∧
  doc.get "paymentMethod" = JVal.str o.paymentMethod

/-! ## Sample data -/

/-- An administrator. -/
def sampleAdmin : ReqUser := { _id := "a1", role := "admin" }

/-- A customer. -/
def sampleUser : ReqUser := { _id := "u1", role := "user" }

/-- A completed cash-on-delivery order of `sampleUser`. -/
def sampleDoneOrder : Order :=
  { user := "u1", orderStatus := "done", paymentMethod := "COD",
    paymentResult := some { status := some true, id := none, updateTime := some 5 },
    createdAt := 1 }

/-- A new PayPal order whose `paymentResult` has an id and no `status`. -/
def sampleUnpaidOrder : Order :=
  { user := "u1", orderStatus := "new", paymentMethod := "PayPal",
    paymentResult := some { status := none, id := some "PAY-1", updateTime := none },
    createdAt := 2 }

/-- A new PayPal order whose payment is recorded as not succeeded. -/
def sampleRefusedOrder : Order :=
  { user := "u1", orderStatus := "new", paymentMethod := "PayPal",
    paymentResult := some { status := some false, id := some "PAY-2", updateTime := none },
    createdAt := 3 }

/-- A new cash-on-delivery order of `sampleUser`. -/
def sampleNewOrder : Order :=
  { user := "u1", orderStatus := "new", paymentMethod := "COD",
    paymentResult := none, createdAt := 4 }

/-- A checkout body that tries to choose its own owner and status. -/
def sampleCodBody : Obj :=
  [("paymentMethod", JVal.str "COD"), ("user", JVal.str "someone-else"),
   ("orderStatus", JVal.str "done"), ("totalPrice", JVal.num 30)]

/-! ## The listing, as the specification words it -/

/-- An order passes the filters of a query: each of `orderStatus` and
`paymentMethod`, when given, equals the order's field. -/
def OrderQuery.accepts (q : OrderQuery) (o : Order) : Bool :=
  (!paramGiven q.orderStatus || o.orderStatus == q.orderStatus.getD "") &&
    (!paramGiven q.paymentMethod || o.paymentMethod == q.paymentMethod.getD "")

/-- The matching orders of a collection in the order they are served: newest
first unless the query names a sort. -/
def matchingOrders (coll : List Order) (q : OrderQuery) : List Order :=
  if paramGiven q.sort then coll.filter q.accepts
  else sortNewestFirst (coll.filter q.accepts)

/-- An `Order.create` that stores every document and settles with it. -/
def storingCreate (doc : Obj) : Settled :=
  Settled.fulfilled (JVal.obj (("_id", JVal.str "o9") :: doc))

/-- An `Order.create` that rejects every document. -/
def failingCreate (_doc : Obj) : Settled :=
  Settled.rejected (JVal.obj [("name", JVal.str "MongoNetworkError")])

/-- A small order collection. -/
def sampleOrders : List Order :=
  [sampleDoneOrder, sampleUnpaidOrder, sampleRefusedOrder, sampleNewOrder]

/-- The query `?orderStatus=new&page=2&limit=1`. -/
def sampleQuery : OrderQuery :=
  { orderStatus := some "new", paymentMethod := none, sort := none,
    page := some 2, limit := some 1 }

/-- A gateway that answers every capture request with `DECLINED`. -/
def decliningGateway (_orderID : JVal) : Settled :=
  Settled.fulfilled (JVal.obj [("statusCode", JVal.num 201),
    ("result", JVal.obj [("id", JVal.str "5O1"), ("status", JVal.str "DECLINED")])])

/-- A gateway that answers every capture request with `COMPLETED`. -/
def completingGateway (_orderID : JVal) : Settled :=
  Settled.fulfilled (JVal.obj [("statusCode", JVal.num 201),
    ("result", JVal.obj [("id", JVal.str "5O1"), ("status", JVal.str "COMPLETED")])])

/-- A browser with nothing stored, nothing logged and an anonymous provider. -/
def freshClient : Client :=
  { state := AuthContextProvider [], storage := [], console := [] }

/-- The browser after a customer logged in. -/
def loggedInClient : Client :=
  loginHandler freshClient (JVal.str "jwt-1") (JVal.str "An") (JVal.str "Tran")
    (JVal.str "/img/an.png") (JVal.str "an@example.com") (JVal.str "user")

/-- The browser after a login that passed no avatar. -/
def noAvatarClient : Client :=
  loginHandler freshClient (JVal.str "jwt-1") (JVal.str "An") (JVal.str "Tran")
    JVal.undefined (JVal.str "an@example.com") (JVal.str "user")
/-! ## Properties of the value model -/

theorem lookup_erase_append_same {β : Type} (o : List (String × β)) (k : String) (v : β) :
    List.lookup k (o.filter (fun p => p.1 != k) ++ [(k, v)]) = some v := by
  induction o with
  | nil => simp [List.lookup]
  | cons p rest ih =>
    obtain ⟨a, b⟩ := p
    by_cases h : a = k
    · simp [List.filter_cons, h, ih]
    · have hk : (k == a) = false := by
        simpa using fun e : k = a => h e.symm
      simp [List.filter_cons, h, List.lookup_cons, hk, ih]

theorem lookup_erase_append_other {β : Type} (o : List (String × β)) (k k' : String) (v : β)
    (h : k' ≠ k) :
    List.lookup k' (o.filter (fun p => p.1 != k) ++ [(k, v)]) = List.lookup k' o := by
  have hkk : (k' == k) = false := by simpa using h
  induction o with
  | nil => simp [List.lookup, hkk]
  | cons p rest ih =>
    obtain ⟨a, b⟩ := p
    by_cases hp : a = k
    · subst hp
      simp [List.filter_cons, List.lookup_cons, hkk, ih]
    · by_cases hq : k' = a
      · subst hq
        simp [List.filter_cons, hp, List.lookup_cons]
      · have hk : (k' == a) = false := by simpa using hq
        simp [List.filter_cons, hp, List.lookup_cons, hk, ih]

theorem lookup_erase_same {β : Type} (o : List (String × β)) (k : String) :
    List.lookup k (o.filter (fun p => p.1 != k)) = none := by
  induction o with
  | nil => simp [List.lookup]
  | cons p rest ih =>
    obtain ⟨a, b⟩ := p
    by_cases h : a = k
    · simp [List.filter_cons, h, ih]
    · have hk : (k == a) = false := by
        simpa using fun e : k = a => h e.symm
      simp [List.filter_cons, h, List.lookup_cons, hk, ih]

theorem lookup_erase_other {β : Type} (o : List (String × β)) (k k' : String) (h : k' ≠ k) :
    List.lookup k' (o.filter (fun p => p.1 != k)) = List.lookup k' o := by
  induction o with
  | nil => simp [List.lookup]
  | cons p rest ih =>
    obtain ⟨a, b⟩ := p
    by_cases hp : a = k
    · subst hp
      have hkk : (k' == a) = false := by simpa using h
      simp [List.filter_cons, List.lookup_cons, hkk, ih]
    · by_cases hq : k' = a
      · subst hq
        simp [List.filter_cons, hp, List.lookup_cons]
      · have hk : (k' == a) = false := by simpa using hq
        simp [List.filter_cons, hp, List.lookup_cons, hk, ih]

theorem Obj.get_set_same (o : Obj) (k : String) (v : JVal) : (o.set k v).get k = v := by
  simp [Obj.set, Obj.get, lookup_erase_append_same]

theorem Obj.get_set_other (o : Obj) (k k' : String) (v : JVal) (h : k' ≠ k) :
    (o.set k v).get k' = o.get k' := by
  simp [Obj.set, Obj.get, lookup_erase_append_other _ _ _ _ h]

theorem JVal.strictEqStr_iff (v : JVal) (lit : String) :
    v.strictEqStr lit = true ↔ v = JVal.str lit := by
  cases v <;> simp [JVal.strictEqStr]

theorem Storage.getItem_setItem_same (s : Storage) (k : String) (v : JVal) :
    (s.setItem k v).getItem k = JVal.str v.toStr := by
  simp [Storage.setItem, Storage.getItem, lookup_erase_append_same]

theorem Storage.getItem_setItem_other (s : Storage) (k k' : String) (v : JVal) (h : k' ≠ k) :
    (s.setItem k v).getItem k' = s.getItem k' := by
  simp [Storage.setItem, Storage.getItem, lookup_erase_append_other _ _ _ _ h]

theorem Storage.getItem_removeItem_same (s : Storage) (k : String) :
    (s.removeItem k).getItem k = JVal.null := by
  simp [Storage.removeItem, Storage.getItem, lookup_erase_same]

theorem Storage.getItem_removeItem_other (s : Storage) (k k' : String) (h : k' ≠ k) :
    (s.removeItem k).getItem k' = s.getItem k' := by
  simp [Storage.removeItem, Storage.getItem, lookup_erase_other _ _ _ h]

/-! ## Status transitions -/

/-- Both guarded transitions refuse an order that is already `done` or `fail`
and leave `req.body` as it was. -/
theorem terminal_refused_by_delete_and_complete (o : Order) (user : ReqUser) (body : Obj)
    (now : Int) (h : o.orderStatus = "done" ∨ o.orderStatus = "fail") :
    deleteOrder (some o) user body
        = { body := body, next := Next.err ⟨"Cannot update completed order", 400⟩ } ∧
      completeOrder (some o) body now
        = { body := body, next := Next.err ⟨"Cannot update completed order", 400⟩ } := by
  have h' : o.orderStatus = "fail" ∨ o.orderStatus = "done" := h.symm
  simp [deleteOrder, completeOrder, h']

/-- C1, at the failing input: for the completed order `sampleDoneOrder`,
`deleteOrder` and `completeOrder` answer with the error "Cannot update completed
order" and leave the body alone, while `acceptOrder`, which never reads the
stored order, calls `next()` without an error and puts
`orderStatus = 'processing'` on the request. -/
theorem acceptOrder_reopens_done_order :
    sampleDoneOrder.orderStatus = "done" ∧
    (deleteOrder (some sampleDoneOrder) sampleAdmin []).next
      = Next.err ⟨"Cannot update completed order", 400⟩ ∧
    (completeOrder (some sampleDoneOrder) [] 0).next
      = Next.err ⟨"Cannot update completed order", 400⟩ ∧
    (acceptOrder []).next = Next.ok ∧
    (acceptOrder []).body.get "orderStatus" = JVal.str "processing" := by
  refine ⟨rfl, ?_, ?_, rfl, ?_⟩
  · simp [deleteOrder, sampleDoneOrder]
  · simp [completeOrder, sampleDoneOrder]
  · exact Obj.get_set_same _ _ _

/-- C3: `deleteOrder` on a stored order `o` for requester `user`.  It is refused
with a 400 error, the body untouched, when the status is `done` or `fail`, when
the requester has role `user` and is not the owner, and when the requester has
role `user` and the status is not `new`; in every other case it calls `next()`
with `orderStatus = 'fail'` written on the body. -/
theorem deleteOrder_decision (o : Order) (user : ReqUser) (body : Obj) :
    (((o.orderStatus = "done" ∨ o.orderStatus = "fail") ∨
        (user.role = "user" ∧ o.user ≠ user._id) ∨
        (user.role = "user" ∧ o.orderStatus ≠ "new")) →
      ∃ e : AppError, e.statusCode = 400 ∧
        deleteOrder (some o) user body = { body := body, next := Next.err e }) ∧
    (¬ ((o.orderStatus = "done" ∨ o.orderStatus = "fail") ∨
        (user.role = "user" ∧ o.user ≠ user._id) ∨
        (user.role = "user" ∧ o.orderStatus ≠ "new")) →
      deleteOrder (some o) user body
          = { body := body.set "orderStatus" (JVal.str "fail"), next := Next.ok } ∧
        (deleteOrder (some o) user body).body.get "orderStatus" = JVal.str "fail") := by
  have hd : deleteOrder (some o) user body =
      if o.orderStatus = "fail" ∨ o.orderStatus = "done" then
        { body := body, next := Next.err ⟨"Cannot update completed order", 400⟩ }
      else if user.role = "user" ∧ o.orderStatus ≠ "new" then
        { body := body,
          next := Next.err ⟨"User cannot delete order after it was processing", 400⟩ }
      else if user.role = "user" ∧ ¬ (o.user = user._id) then
        { body := body,
          next := Next.err ⟨"User does not have owned to cancel this order", 400⟩ }
      else
        { body := body.set "orderStatus" (JVal.str "fail"), next := Next.ok } := rfl
  by_cases h1 : o.orderStatus = "fail" ∨ o.orderStatus = "done"
  · rw [hd, if_pos h1]
    exact ⟨fun _ => ⟨_, rfl, rfl⟩, fun hn => absurd (Or.inl h1.symm) hn⟩
  · by_cases h2 : user.role = "user" ∧ o.orderStatus ≠ "new"
    · rw [hd, if_neg h1, if_pos h2]
      exact ⟨fun _ => ⟨_, rfl, rfl⟩, fun hn => absurd (Or.inr (Or.inr h2)) hn⟩
    · by_cases h3 : user.role = "user" ∧ ¬ (o.user = user._id)
      · rw [hd, if_neg h1, if_neg h2, if_pos h3]
        exact ⟨fun _ => ⟨_, rfl, rfl⟩, fun hn => absurd (Or.inr (Or.inl h3)) hn⟩
      · rw [hd, if_neg h1, if_neg h2, if_neg h3]
        refine ⟨fun hc => ?_, fun _ => ⟨rfl, Obj.get_set_same _ _ _⟩⟩
        rcases hc with hc | hc | hc
        · exact absurd hc.symm h1
        · exact absurd hc h3
        · exact absurd hc h2

/-- The owner of a new order cancels it: `deleteOrder_decision` at
`sampleNewOrder` and `sampleUser`. -/
theorem deleteOrder_decision_witness :
    deleteOrder (some sampleNewOrder) sampleUser []
        = { body := Obj.set [] "orderStatus" (JVal.str "fail"), next := Next.ok } ∧
      (deleteOrder (some sampleNewOrder) sampleUser []).body.get "orderStatus"
        = JVal.str "fail" :=
  (deleteOrder_decision sampleNewOrder sampleUser []).2 (by decide)

/-- C4, as stated, fails: `sampleUnpaidOrder` is `new`, is paid by PayPal and
has no `paymentResult.status`, yet `completeOrder` calls `next()` and writes
`orderStatus = 'done'`. -/
theorem completeOrder_accepts_absent_payment_status :
    (sampleUnpaidOrder.orderStatus ≠ "done" ∧ sampleUnpaidOrder.orderStatus ≠ "fail") ∧
    sampleUnpaidOrder.paymentMethod ≠ "COD" ∧
    (∀ pr, sampleUnpaidOrder.paymentResult = some pr → pr.status ≠ some true) ∧
    (completeOrder (some sampleUnpaidOrder) [] 0).next = Next.ok ∧
    (completeOrder (some sampleUnpaidOrder) [] 0).body.get "orderStatus"
      = JVal.str "done" := by
  refine ⟨by decide, by decide, ?_, ?_, ?_⟩
  · intro pr h
    simp [sampleUnpaidOrder] at h
    subst h
    simp
  · simp [completeOrder, paymentOutstanding, sampleUnpaidOrder]
  · have : completeOrder (some sampleUnpaidOrder) [] 0
        = { body := (Obj.set [] "paymentResult"
              (JVal.obj [("status", JVal.bool true), ("updateTime", JVal.num 0)])).set
              "orderStatus" (JVal.str "done"),
            next := Next.ok } := by
      simp [completeOrder, paymentOutstanding, sampleUnpaidOrder]
    rw [this]
    exact Obj.get_set_same _ _ _

/-- C4, amended: for every order whose status is neither `done` nor `fail`,
whose payment method is not `COD` and whose `paymentResult.status` is `false`,
`completeOrder` answers with the error "Please pay for the order through
Paypal" (400) and leaves the body, and with it `orderStatus`, as it was. -/
theorem completeOrder_requires_payment (o : Order) (pr : PaymentResult) (body : Obj)
    (now : Int) (hs : o.orderStatus ≠ "done" ∧ o.orderStatus ≠ "fail")
    (hm : o.paymentMethod ≠ "COD") (hp : o.paymentResult = some pr)
    (hf : pr.status = some false) :
    completeOrder (some o) body now
      = { body := body,
          next := Next.err ⟨"Please pay for the order through Paypal", 400⟩ } := by
  have h1 : ¬ (o.orderStatus = "fail" ∨ o.orderStatus = "done") := by
    rintro (h | h)
    · exact hs.2 h
    · exact hs.1 h
  simp [completeOrder, paymentOutstanding, h1, hm, hp, hf]

/-- The amended C4 at `sampleRefusedOrder`, a PayPal order recorded as unpaid. -/
theorem completeOrder_requires_payment_witness :
    completeOrder (some sampleRefusedOrder) sampleCodBody 7
      = { body := sampleCodBody,
          next := Next.err ⟨"Please pay for the order through Paypal", 400⟩ } :=
  completeOrder_requires_payment sampleRefusedOrder
    { status := some false, id := some "PAY-2", updateTime := none } sampleCodBody 7
    (by decide) (by decide) rfl rfl

/-! ## Order creation -/

theorem JVal.includedIn_cod_paypal (v : JVal) :
    v.includedIn ["COD", "PayPal"] = true ↔ (v = JVal.str "COD" ∨ v = JVal.str "PayPal") := by
  simp [JVal.includedIn, JVal.strictEqStr_iff]

theorem newOrderDoc_orderStatus (user : ReqUser) (body : Obj) :
    (newOrderDoc user body).get "orderStatus" = JVal.str "new" :=
  Obj.get_set_same _ _ _

theorem newOrderDoc_user (user : ReqUser) (body : Obj) :
    (newOrderDoc user body).get "user" = JVal.str user._id := by
  unfold newOrderDoc
  rw [Obj.get_set_other _ _ _ _ (by decide)]
  exact Obj.get_set_same _ _ _

theorem newOrderDoc_paymentMethod (user : ReqUser) (body : Obj) :
    (newOrderDoc user body).get "paymentMethod" = body.get "paymentMethod" := by
  unfold newOrderDoc
  rw [Obj.get_set_other _ _ _ _ (by decide), Obj.get_set_other _ _ _ _ (by decide)]

/-- The body of `createNewOrder`, check by check. -/
theorem createNewOrder_unfold (create : Obj → Settled) (user : ReqUser) (body : Obj) :
    createNewOrder create user body =
      if !(body.get "paymentMethod").truthy then
        CreateResult.nextErr ⟨"Payment method is required", 400⟩
      else if !(body.get "paymentMethod").includedIn ["COD", "PayPal"] then
        CreateResult.nextErr ⟨"Invalid payment method", 400⟩
      else if (body.get "paymentMethod").strictEqStr "PayPal"
          && !((body.get "paymentResult").optChain "id").truthy then
        CreateResult.nextErr ⟨"PayPal payment details required", 400⟩
      else
        match create (newOrderDoc user body) with
        | Settled.rejected reason => CreateResult.thrown reason
        | Settled.fulfilled order => CreateResult.created 201 order := rfl

/-- A body that passes the three checks reaches `Order.create`, and the handler
ends as that call settles. -/
theorem createNewOrder_of_valid (create : Obj → Settled) (user : ReqUser) (body : Obj)
    (hpm : body.get "paymentMethod" = JVal.str "COD" ∨
      body.get "paymentMethod" = JVal.str "PayPal")
    (hid : body.get "paymentMethod" = JVal.str "PayPal" →
      ((body.get "paymentResult").optChain "id").truthy = true) :
    createNewOrder create user body =
      match create (newOrderDoc user body) with
      | Settled.rejected reason => CreateResult.thrown reason
      | Settled.fulfilled order => CreateResult.created 201 order := by
  have h1 : ¬ ((!(body.get "paymentMethod").truthy) = true) := by
    rcases hpm with h | h <;> rw [h] <;> decide
  have h2 : ¬ ((!(body.get "paymentMethod").includedIn ["COD", "PayPal"]) = true) := by
    simp [(JVal.includedIn_cod_paypal _).2 hpm]
  have h3 : ¬ (((body.get "paymentMethod").strictEqStr "PayPal"
      && !((body.get "paymentResult").optChain "id").truthy) = true) := by
    intro hb
    rw [Bool.and_eq_true] at hb
    have := hid ((JVal.strictEqStr_iff _ _).1 hb.1)
    rw [this] at hb
    exact absurd hb.2 (by decide)
  rw [createNewOrder_unfold, if_neg h1, if_neg h2, if_neg h3]

/-- C2: `createNewOrder` ends in `next(err)` with an error of its own exactly
when `paymentMethod` is missing, or is neither `'COD'` nor `'PayPal'`, or is
`'PayPal'` while `paymentResult.id` is missing, whatever `Order.create` would
do; every such error carries status 400.  For every other body no such error is
raised and `Order.create` is called with the body's document: when it settles
with the created order the answer is 201 with that order, and when it rejects
the rejection is forwarded.  A field is missing in the sense of the code's test
`!field`: it is absent, `null`, `false`, `0` or the empty string. -/
theorem createNewOrder_rejects_iff (create : Obj → Settled) (user : ReqUser) (body : Obj) :
    ((∃ e : AppError, createNewOrder create user body = CreateResult.nextErr e) ↔
      ((body.get "paymentMethod").truthy = false ∨
        ¬ (body.get "paymentMethod" = JVal.str "COD" ∨
            body.get "paymentMethod" = JVal.str "PayPal") ∨
        (body.get "paymentMethod" = JVal.str "PayPal" ∧
          ((body.get "paymentResult").optChain "id").truthy = false))) ∧
    (∀ e : AppError, createNewOrder create user body = CreateResult.nextErr e →
      e.statusCode = 400) ∧
    (¬ ((body.get "paymentMethod").truthy = false ∨
        ¬ (body.get "paymentMethod" = JVal.str "COD" ∨
            body.get "paymentMethod" = JVal.str "PayPal") ∨
        (body.get "paymentMethod" = JVal.str "PayPal" ∧
          ((body.get "paymentResult").optChain "id").truthy = false)) →
      (∀ order : JVal, create (newOrderDoc user body) = Settled.fulfilled order →
        createNewOrder create user body = CreateResult.created 201 order) ∧
      (∀ reason : JVal, create (newOrderDoc user body) = Settled.rejected reason →
        createNewOrder create user body = CreateResult.thrown reason)) := by
  have rejected : ∀ (e0 : AppError) (c : Prop) (d : Prop), e0.statusCode = 400 → c →
      createNewOrder create user body = CreateResult.nextErr e0 →
      ((∃ e : AppError, createNewOrder create user body = CreateResult.nextErr e) ↔ c) ∧
      (∀ e : AppError, createNewOrder create user body = CreateResult.nextErr e →
        e.statusCode = 400) ∧
      (¬ c → d) := by
    intro e0 c d h400 hc hr
    refine ⟨⟨fun _ => hc, fun _ => ⟨e0, hr⟩⟩, fun e he => ?_, fun hn => absurd hc hn⟩
    rw [hr] at he
    cases he
    exact h400
  by_cases h1 : (body.get "paymentMethod").truthy = false
  · refine rejected ⟨"Payment method is required", 400⟩ _ _ rfl (Or.inl h1) ?_
    rw [createNewOrder_unfold, if_pos (by simp [h1])]
  · by_cases h2 : body.get "paymentMethod" = JVal.str "COD" ∨
        body.get "paymentMethod" = JVal.str "PayPal"
    · by_cases h3 : body.get "paymentMethod" = JVal.str "PayPal" ∧
          ((body.get "paymentResult").optChain "id").truthy = false
      · refine rejected ⟨"PayPal payment details required", 400⟩ _ _ rfl
          (Or.inr (Or.inr h3)) ?_
        have h1' : ¬ ((!(body.get "paymentMethod").truthy) = true) := by simpa using h1
        have h2' : ¬ ((!(body.get "paymentMethod").includedIn ["COD", "PayPal"]) = true) := by
          simp [(JVal.includedIn_cod_paypal _).2 h2]
        have h3' : ((body.get "paymentMethod").strictEqStr "PayPal"
            && !((body.get "paymentResult").optChain "id").truthy) = true := by
          simp [(JVal.strictEqStr_iff _ _).2 h3.1, h3.2]
        rw [createNewOrder_unfold, if_neg h1', if_neg h2', if_pos h3']
      · have hid : body.get "paymentMethod" = JVal.str "PayPal" →
            ((body.get "paymentResult").optChain "id").truthy = true := by
          intro hp
          cases ht : ((body.get "paymentResult").optChain "id").truthy
          · exact absurd ⟨hp, ht⟩ h3
          · rfl
        have hr := createNewOrder_of_valid create user body h2 hid
        have hno : ∀ e : AppError,
            createNewOrder create user body ≠ CreateResult.nextErr e := by
          intro e he
          rw [hr] at he
          cases hc : create (newOrderDoc user body) <;> rw [hc] at he <;> cases he
        refine ⟨⟨fun he => ?_, fun hc => ?_⟩, fun e he => absurd he (hno e), fun _ => ⟨?_, ?_⟩⟩
        · obtain ⟨e, he⟩ := he
          exact absurd he (hno e)
        · rcases hc with hc | hc | hc
          · exact absurd hc h1
          · exact absurd h2 hc
          · exact absurd hc h3
        · intro order hc
          rw [hr, hc]
        · intro reason hc
          rw [hr, hc]
    · refine rejected ⟨"Invalid payment method", 400⟩ _ _ rfl (Or.inr (Or.inl h2)) ?_
      have h1' : ¬ ((!(body.get "paymentMethod").truthy) = true) := by simpa using h1
      have h2' : (!(body.get "paymentMethod").includedIn ["COD", "PayPal"]) = true := by
        cases hb : (body.get "paymentMethod").includedIn ["COD", "PayPal"]
        · rfl
        · exact absurd ((JVal.includedIn_cod_paypal _).1 hb) h2
      rw [createNewOrder_unfold, if_neg h1', if_pos h2']

/-- A cash-on-delivery body is accepted and answered with the order that
`storingCreate` returns: `createNewOrder_rejects_iff` at `sampleCodBody`. -/
theorem createNewOrder_rejects_iff_witness :
    createNewOrder storingCreate sampleUser sampleCodBody = CreateResult.created 201
      (JVal.obj (("_id", JVal.str "o9") :: newOrderDoc sampleUser sampleCodBody)) :=
  ((createNewOrder_rejects_iff storingCreate sampleUser sampleCodBody).2.2 (fun h =>
    h.elim (fun h1 => absurd h1 (by decide))
      (fun h23 => h23.elim (fun h2 => h2 (Or.inl rfl))
        (fun h3 => absurd (JVal.str.inj h3.1) (by decide))))).1 _ rfl

/-- An id that is present and empty counts as missing, and `Order.create` is
not reached. -/
theorem createNewOrder_rejects_empty_id :
    createNewOrder storingCreate sampleUser
        [("paymentMethod", JVal.str "PayPal"), ("paymentResult", JVal.obj [("id", JVal.str "")])]
      = CreateResult.nextErr ⟨"PayPal payment details required", 400⟩ := by
  rfl

/-- When `Order.create` rejects a body that passed the checks, no order is
created and no 201 is sent: the rejection is forwarded. -/
theorem createNewOrder_forwards_rejection :
    createNewOrder failingCreate sampleUser sampleCodBody
      = CreateResult.thrown (JVal.obj [("name", JVal.str "MongoNetworkError")]) := by
  rfl

/-- C5: for every requester and every body whose `paymentMethod` is `'COD'`,
whatever else the body holds, `createNewOrder` hands `Order.create` a document
whose `orderStatus` is `'new'` and whose `user` is the requester, and answers
201 with the order that `Order.create` settles with; an order can be read back
from that document, and for every order read back from it `completeOrder` calls
`next()` with `orderStatus = 'done'` and `paymentResult.status = true` on the
body. -/
theorem createNewOrder_cod_then_completeOrder (create : Obj → Settled) (user : ReqUser)
    (body : Obj) (order : JVal)
    (hcod : body.get "paymentMethod" = JVal.str "COD")
    (hcreate : create (newOrderDoc user body) = Settled.fulfilled order) :
    createNewOrder create user body = CreateResult.created 201 order ∧
      newOrderDoc user body
        = (body.set "user" (JVal.str user._id)).set "orderStatus" (JVal.str "new") ∧
      (newOrderDoc user body).get "orderStatus" = JVal.str "new" ∧
      (newOrderDoc user body).get "user" = JVal.str user._id ∧
      (∃ o : Order, o.storedFrom (newOrderDoc user body)) ∧
      ∀ (o : Order) (reqBody : Obj) (now : Int), o.storedFrom (newOrderDoc user body) →
        (completeOrder (some o) reqBody now).next = Next.ok ∧
        (completeOrder (some o) reqBody now).body.get "orderStatus" = JVal.str "done" ∧
        ((completeOrder (some o) reqBody now).body.get "paymentResult").optChain "status"
          = JVal.bool true := by
  refine ⟨?_, rfl, newOrderDoc_orderStatus _ _, newOrderDoc_user _ _, ?_, ?_⟩
  · have hr := createNewOrder_of_valid create user body (Or.inl hcod) (fun h => by
      rw [hcod] at h
      exact absurd (JVal.str.inj h) (by decide))
    rw [hr, hcreate]
  · refine ⟨Order.mk user._id "new" "COD" none 0, newOrderDoc_user _ _,
      newOrderDoc_orderStatus _ _, ?_⟩
    rw [newOrderDoc_paymentMethod, hcod]
  · intro o reqBody now hst
    obtain ⟨_, hs, hm⟩ := hst
    rw [newOrderDoc_orderStatus] at hs
    rw [newOrderDoc_paymentMethod, hcod] at hm
    have hs' : o.orderStatus = "new" := (JVal.str.inj hs).symm
    have hm' : o.paymentMethod = "COD" := (JVal.str.inj hm).symm
    have hc : completeOrder (some o) reqBody now =
        { body := (reqBody.set "paymentResult"
              (JVal.obj [("status", JVal.bool true), ("updateTime", JVal.num now)])).set
              "orderStatus" (JVal.str "done"),
          next := Next.ok } := by
      simp [completeOrder, paymentOutstanding, hs', hm']
    rw [hc]
    refine ⟨rfl, Obj.get_set_same _ _ _, ?_⟩
    show (Obj.get _ "paymentResult").optChain "status" = JVal.bool true
    rw [Obj.get_set_other _ _ _ _ (by decide), Obj.get_set_same]
    rfl

/-- C5 at `sampleCodBody`, whose own `user` and `orderStatus` are overwritten,
with `storingCreate` as `Order.create`. -/
theorem createNewOrder_cod_then_completeOrder_witness :
    createNewOrder storingCreate sampleUser sampleCodBody
        = CreateResult.created 201
          (JVal.obj (("_id", JVal.str "o9") :: newOrderDoc sampleUser sampleCodBody)) ∧
      newOrderDoc sampleUser sampleCodBody
        = (sampleCodBody.set "user" (JVal.str sampleUser._id)).set "orderStatus"
            (JVal.str "new") ∧
      (newOrderDoc sampleUser sampleCodBody).get "orderStatus" = JVal.str "new" ∧
      (newOrderDoc sampleUser sampleCodBody).get "user" = JVal.str sampleUser._id ∧
      (∃ o : Order, o.storedFrom (newOrderDoc sampleUser sampleCodBody)) ∧
      ∀ (o : Order) (reqBody : Obj) (now : Int),
        o.storedFrom (newOrderDoc sampleUser sampleCodBody) →
        (completeOrder (some o) reqBody now).next = Next.ok ∧
        (completeOrder (some o) reqBody now).body.get "orderStatus" = JVal.str "done" ∧
        ((completeOrder (some o) reqBody now).body.get "paymentResult").optChain "status"
          = JVal.bool true :=
  createNewOrder_cod_then_completeOrder storingCreate sampleUser sampleCodBody _ rfl rfl

/-! ## Listing and page counts -/

theorem numberOr_of_given (x : Option Nat) (n d : Nat)
    (h : (x = some n ∧ 0 < n) ∨ (x = none ∧ n = d)) : numberOr x d = n := by
  rcases h with ⟨hx, hn⟩ | ⟨hx, hn⟩
  · subst hx
    simp [numberOr, Nat.pos_iff_ne_zero.mp hn]
  · subst hx
    simp [numberOr, hn]

/-- The value of `Math.ceil(total / limit)` is the integer quotient rounded up. -/
theorem mathCeil_div (total limit : Nat) (hl : 0 < limit) :
    mathCeil ((total : ℚ) / (limit : ℚ)) = (((total + limit - 1) / limit : ℕ) : ℤ) := by
  unfold mathCeil
  have hlq : (0 : ℚ) < (limit : ℚ) := by exact_mod_cast hl
  have h1 : (total + limit - 1) / limit * limit ≤ total + limit - 1 :=
    Nat.div_mul_le_self _ _
  have h2 : total + limit - 1 < (total + limit - 1) / limit * limit + limit :=
    Nat.lt_div_mul_add hl
  generalize (total + limit - 1) / limit = k at h1 h2 ⊢
  generalize hm : k * limit = m at h1 h2
  have h3 : total ≤ m := by omega
  have h4 : m < total + limit := by omega
  have hmq : (k : ℚ) * (limit : ℚ) = (m : ℚ) := by exact_mod_cast hm
  have h3q : (total : ℚ) ≤ (m : ℚ) := by exact_mod_cast h3
  have h4q : (m : ℚ) < (total : ℚ) + (limit : ℚ) := by exact_mod_cast h4
  rw [Int.ceil_eq_iff]
  constructor
  · rw [lt_div_iff₀ hlq]
    push_cast
    nlinarith
  · rw [div_le_iff₀ hlq]
    push_cast
    nlinarith

theorem filter_accepts (q : OrderQuery) (coll : List Order) :
    (if paramGiven q.paymentMethod then
        findByPaymentMethod (q.paymentMethod.getD "")
          (if paramGiven q.orderStatus then findByOrderStatus (q.orderStatus.getD "") coll
            else coll)
      else
        (if paramGiven q.orderStatus then findByOrderStatus (q.orderStatus.getD "") coll
          else coll))
      = coll.filter q.accepts := by
  have hacc : q.accepts = fun o =>
      (!paramGiven q.orderStatus || o.orderStatus == q.orderStatus.getD "") &&
        (!paramGiven q.paymentMethod || o.paymentMethod == q.paymentMethod.getD "") := rfl
  cases h1 : paramGiven q.orderStatus <;> cases h2 : paramGiven q.paymentMethod <;>
    simp [findByOrderStatus, findByPaymentMethod, hacc, h1, h2, List.filter_filter,
      Bool.and_comm]

/-- C6: for every order collection, every filter and every page and limit that
are positive integers or absent (then 1 and 10), `getAllOrders` serves the slice
of the matching orders that skips `(page - 1) * limit` of them and takes
`limit`: at most `limit` orders, all from the collection and all passing the
filters; it reports that page and `totalPages = ceil(total / limit)`, `total`
being the size of the whole collection whatever the filters. -/
theorem getAllOrders_page (coll : List Order) (q : OrderQuery) (page limit : Nat)
    (hp : (q.page = some page ∧ 0 < page) ∨ (q.page = none ∧ page = 1))
    (hl : (q.limit = some limit ∧ 0 < limit) ∨ (q.limit = none ∧ limit = 10)) :
    (getAllOrders coll q).data
        = ((matchingOrders coll q).drop ((page - 1) * limit)).take limit ∧
      (getAllOrders coll q).data.length ≤ limit ∧
      (getAllOrders coll q).results = (getAllOrders coll q).data.length ∧
      (∀ o ∈ (getAllOrders coll q).data, o ∈ coll ∧ q.accepts o = true) ∧
      (getAllOrders coll q).currentPage = page ∧
      (getAllOrders coll q).totalPages = ⌈(coll.length : ℚ) / (limit : ℚ)⌉ ∧
      (getAllOrders coll q).totalPages = (((coll.length + limit - 1) / limit : ℕ) : ℤ) := by
  have hpage : numberOr q.page 1 = page := numberOr_of_given _ _ _ hp
  have hlimit : numberOr q.limit 10 = limit := numberOr_of_given _ _ _ hl
  have hlpos : 0 < limit := by
    rcases hl with ⟨_, h⟩ | ⟨_, h⟩
    · exact h
    · omega
  have hdata : (getAllOrders coll q).data
      = ((matchingOrders coll q).drop ((page - 1) * limit)).take limit := by
    have hq := filter_accepts q coll
    show List.take (numberOr q.limit 10) (List.drop ((numberOr q.page 1 - 1) *
      numberOr q.limit 10) _) = _
    rw [hpage, hlimit]
    unfold matchingOrders
    cases hs : paramGiven q.sort <;> simp [hq]
  have hmem : ∀ o ∈ (getAllOrders coll q).data, o ∈ coll ∧ q.accepts o = true := by
    intro o ho
    rw [hdata] at ho
    have h1 := List.mem_of_mem_drop (List.mem_of_mem_take ho)
    have h2 : o ∈ coll.filter q.accepts := by
      unfold matchingOrders at h1
      split at h1
      · exact h1
      · exact (List.mem_insertionSort _).1 h1
    exact List.mem_filter.1 h2
  have htot : (getAllOrders coll q).totalPages = ⌈(coll.length : ℚ) / (limit : ℚ)⌉ := by
    show mathCeil ((coll.length : ℚ) / ((numberOr q.limit 10 : ℕ) : ℚ)) = _
    rw [hlimit]
    rfl
  refine ⟨hdata, ?_, rfl, hmem, hpage, htot, ?_⟩
  · rw [hdata]
    exact (List.length_take_le _ _)
  · rw [htot]
    exact mathCeil_div _ _ hlpos

/-- C6 at `sampleOrders` and `sampleQuery`: page 2 with one order a page. -/
theorem getAllOrders_page_witness :
    (getAllOrders sampleOrders sampleQuery).data
        = ((matchingOrders sampleOrders sampleQuery).drop ((2 - 1) * 1)).take 1 ∧
      (getAllOrders sampleOrders sampleQuery).data.length ≤ 1 ∧
      (getAllOrders sampleOrders sampleQuery).results
        = (getAllOrders sampleOrders sampleQuery).data.length ∧
      (∀ o ∈ (getAllOrders sampleOrders sampleQuery).data,
        o ∈ sampleOrders ∧ sampleQuery.accepts o = true) ∧
      (getAllOrders sampleOrders sampleQuery).currentPage = 2 ∧
      (getAllOrders sampleOrders sampleQuery).totalPages
        = ⌈(sampleOrders.length : ℚ) / ((1 : ℕ) : ℚ)⌉ ∧
      (getAllOrders sampleOrders sampleQuery).totalPages
        = (((sampleOrders.length + 1 - 1) / 1 : ℕ) : ℤ) :=
  getAllOrders_page sampleOrders sampleQuery 2 1 (Or.inl ⟨rfl, by decide⟩)
    (Or.inl ⟨rfl, by decide⟩)

/-- The listing at `sampleQuery`: of the three `new` orders, newest first, the
second one is served, and 4 pages are reported for 4 orders in the collection. -/
theorem getAllOrders_sample :
    (getAllOrders sampleOrders sampleQuery).data = [sampleRefusedOrder] ∧
      (getAllOrders sampleOrders sampleQuery).totalPages = 4 := by
  constructor
  · decide
  · show mathCeil (((4 : ℕ) : ℚ) / ((1 : ℕ) : ℚ)) = 4
    rw [mathCeil_div 4 1 (by decide)]
    decide

/-- Floor and ceiling of `total / limit` when `total = limit * k + r` with
`0 < r < limit`. -/
theorem floor_ceil_of_remainder (total limit k r : Nat) (hdm : limit * k + r = total)
    (hpos : 0 < r) (hlt : r < limit) :
    ⌊(total : ℚ) / (limit : ℚ) + 1 / 2 + 1 / 2⌋ = (k : ℤ) + 1 ∧
      ⌈(total : ℚ) / (limit : ℚ)⌉ = (k : ℤ) + 1 := by
  have hlq : (0 : ℚ) < (limit : ℚ) := by exact_mod_cast (Nat.lt_of_le_of_lt (Nat.zero_le _) hlt)
  have hdmq : (limit : ℚ) * (k : ℚ) + (r : ℚ) = (total : ℚ) := by exact_mod_cast hdm
  have hposq : (0 : ℚ) < (r : ℚ) := by exact_mod_cast hpos
  have hltq : (r : ℚ) < (limit : ℚ) := by exact_mod_cast hlt
  have hlow : (k : ℚ) < (total : ℚ) / (limit : ℚ) := by
    rw [lt_div_iff₀ hlq]
    nlinarith
  have hhigh : (total : ℚ) / (limit : ℚ) < (k : ℚ) + 1 := by
    rw [div_lt_iff₀ hlq]
    nlinarith
  constructor
  · rw [Int.floor_eq_iff]
    push_cast
    constructor <;> linarith
  · rw [Int.ceil_eq_iff]
    push_cast
    constructor <;> linarith

/-- The rounding formula of `getAllOrdersByUser` gives the ceiling too. -/
theorem totalPageByUser_eq (total limit : Nat) (hl : 0 < limit) :
    totalPageByUser total limit = totalPagesAll total limit := by
  have hlq : (0 : ℚ) < (limit : ℚ) := by exact_mod_cast hl
  have hdm : limit * (total / limit) + total % limit = total := Nat.div_add_mod _ _
  have hlt : total % limit < limit := Nat.mod_lt _ hl
  unfold totalPageByUser totalPagesAll mathRound mathCeil
  by_cases h0 : total % limit = 0
  · rw [if_pos h0]
    rw [h0] at hdm
    generalize total / limit = k at hdm
    have hq : (total : ℚ) / (limit : ℚ) = ((k : ℤ) : ℚ) := by
      rw [div_eq_iff (ne_of_gt hlq)]
      have hdmq : (limit : ℚ) * (k : ℚ) + ((0 : ℕ) : ℚ) = (total : ℚ) := by exact_mod_cast hdm
      push_cast at hdmq ⊢
      linarith
    rw [hq, Int.ceil_intCast]
  · rw [if_neg h0]
    obtain ⟨hfloor, hceil⟩ :=
      floor_ceil_of_remainder total limit (total / limit) (total % limit) hdm
        (Nat.pos_of_ne_zero h0) hlt
    rw [hfloor, hceil]

/-- C10, as stated, fails: no total and positive limit make the rounding formula
of `getAllOrdersByUser` differ from `Math.ceil(total / limit)`. -/
theorem no_page_count_mismatch :
    ¬ ∃ total limit : Nat, 0 < limit ∧ totalPageByUser total limit ≠ totalPagesAll total limit := by
  rintro ⟨total, limit, hl, hne⟩
  exact hne (totalPageByUser_eq total limit hl)

/-- C10, amended: for every non-negative integer total and positive integer
limit the page count of `getAllOrdersByUser`,
`total % limit === 0 ? total / limit : round(total / limit + 0.5)` in exact
arithmetic with halves rounded up, equals the `ceil(total / limit)` of
`getAllOrders`, and both are the integer quotient rounded up. -/
theorem page_counts_agree (total limit : Nat) (hl : 0 < limit) :
    totalPageByUser total limit = totalPagesAll total limit ∧
      totalPagesAll total limit = (((total + limit - 1) / limit : ℕ) : ℚ) := by
  refine ⟨totalPageByUser_eq total limit hl, ?_⟩
  unfold totalPagesAll
  rw [mathCeil_div total limit hl]
  norm_cast

/-- The amended C10 at 7 orders and 2 a page: both formulas give 4. -/
theorem page_counts_agree_witness :
    totalPageByUser 7 2 = totalPagesAll 7 2 ∧
      totalPagesAll 7 2 = (((7 + 2 - 1) / 2 : ℕ) : ℚ) :=
  page_counts_agree 7 2 (by decide)

/-! ## Payment capture -/

/-- C9: when the gateway answers the capture request with a result carrying a
status, `capturePayment` ends in `next(new AppError('Payment failed', 400))`
exactly when that status is not `'COMPLETED'`, and when it is `'COMPLETED'` the
answer is 200, `'success'`, with the gateway's result as its data. -/
theorem capturePayment_decision (execute : JVal → Settled) (body : Obj)
    (capture result status : JVal)
    (hex : execute (body.get "orderID") = Settled.fulfilled capture)
    (hres : capture.member "result" = some result)
    (hst : result.member "status" = some status) :
    (capturePayment execute body = PayResult.nextErr ⟨"Payment failed", 400⟩ ↔
        status ≠ JVal.str "COMPLETED") ∧
      ((∃ e : AppError, capturePayment execute body = PayResult.nextErr e) ↔
        status ≠ JVal.str "COMPLETED") ∧
      (status = JVal.str "COMPLETED" →
        capturePayment execute body = PayResult.json 200 "success" result) := by
  have hd : capturePayment execute body =
      if !status.strictEqStr "COMPLETED" then PayResult.nextErr ⟨"Payment failed", 400⟩
      else PayResult.json 200 "success" result := by
    simp only [capturePayment, hex, hres, hst]
  by_cases h : status = JVal.str "COMPLETED"
  · have hb : ¬ ((!status.strictEqStr "COMPLETED") = true) := by
      simp [(JVal.strictEqStr_iff _ _).2 h]
    rw [hd, if_neg hb]
    refine ⟨⟨fun he => PayResult.noConfusion he, fun hn => absurd h hn⟩,
      ⟨fun he => ?_, fun hn => absurd h hn⟩, fun _ => rfl⟩
    obtain ⟨e, he⟩ := he
    cases he
  · have hb : (!status.strictEqStr "COMPLETED") = true := by
      cases hs : status.strictEqStr "COMPLETED"
      · rfl
      · exact absurd ((JVal.strictEqStr_iff _ _).1 hs) h
    rw [hd, if_pos hb]
    exact ⟨⟨fun _ => h, fun _ => rfl⟩, ⟨fun _ => h, fun _ => ⟨_, rfl⟩⟩, fun hc => absurd hc h⟩

/-- C9 at a gateway that answers `DECLINED`. -/
theorem capturePayment_decision_witness :
    (capturePayment decliningGateway [("orderID", JVal.str "5O1")]
          = PayResult.nextErr ⟨"Payment failed", 400⟩ ↔
        JVal.str "DECLINED" ≠ JVal.str "COMPLETED") ∧
      ((∃ e : AppError, capturePayment decliningGateway [("orderID", JVal.str "5O1")]
          = PayResult.nextErr e) ↔
        JVal.str "DECLINED" ≠ JVal.str "COMPLETED") ∧
      (JVal.str "DECLINED" = JVal.str "COMPLETED" →
        capturePayment decliningGateway [("orderID", JVal.str "5O1")]
          = PayResult.json 200 "success"
              (JVal.obj [("id", JVal.str "5O1"), ("status", JVal.str "DECLINED")])) :=
  capturePayment_decision decliningGateway [("orderID", JVal.str "5O1")]
    (JVal.obj [("statusCode", JVal.num 201),
      ("result", JVal.obj [("id", JVal.str "5O1"), ("status", JVal.str "DECLINED")])])
    (JVal.obj [("id", JVal.str "5O1"), ("status", JVal.str "DECLINED")])
    (JVal.str "DECLINED") rfl rfl rfl

/-- The two scenarios of the specification, evaluated. -/
theorem capturePayment_scenarios :
    capturePayment decliningGateway [("orderID", JVal.str "5O1")]
        = PayResult.nextErr ⟨"Payment failed", 400⟩ ∧
      capturePayment completingGateway [("orderID", JVal.str "5O1")]
        = PayResult.json 200 "success"
            (JVal.obj [("id", JVal.str "5O1"), ("status", JVal.str "COMPLETED")]) :=
  ⟨rfl, rfl⟩

/-! ## Auth context -/

/-- What `clearStogeHandler` leaves: every cell `null`, every key gone, nobody
logged in. -/
theorem clearStogeHandler_clears (c : Client) :
    (clearStogeHandler c).state.token = JVal.null ∧
      (clearStogeHandler c).state.email = JVal.null ∧
      (clearStogeHandler c).state.firstName = JVal.null ∧
      (clearStogeHandler c).state.lastName = JVal.null ∧
      (clearStogeHandler c).state.avatarUrl = JVal.null ∧
      (clearStogeHandler c).state.role = JVal.null ∧
      (∀ k ∈ authKeys, (clearStogeHandler c).storage.getItem k = JVal.null) ∧
      userIsLoggedIn (clearStogeHandler c).state = false := by
  refine ⟨rfl, rfl, rfl, rfl, rfl, rfl, ?_, rfl⟩
  intro k hk
  simp only [authKeys, List.mem_cons, List.mem_singleton, List.not_mem_nil, or_false] at hk
  have hrm : ∀ (s : Storage) (k' : String), s.getItem k = JVal.null →
      (s.removeItem k').getItem k = JVal.null := by
    intro s k' hs
    by_cases hkk : k = k'
    · subst hkk
      exact Storage.getItem_removeItem_same _ _
    · rw [Storage.getItem_removeItem_other _ _ _ hkk]
      exact hs
  show ((((((c.storage.removeItem "firstName").removeItem "lastName").removeItem
    "email").removeItem "avatarUrl").removeItem "token").removeItem "role").getItem k = _
  rcases hk with h | h | h | h | h | h <;> subst h
  · exact hrm _ _ (Storage.getItem_removeItem_same _ _)
  · exact hrm _ _ (hrm _ _ (hrm _ _ (Storage.getItem_removeItem_same _ _)))
  · exact hrm _ _ (hrm _ _ (hrm _ _ (hrm _ _ (hrm _ _ (Storage.getItem_removeItem_same _ _)))))
  · exact hrm _ _ (hrm _ _ (hrm _ _ (hrm _ _ (Storage.getItem_removeItem_same _ _))))
  · exact hrm _ _ (hrm _ _ (Storage.getItem_removeItem_same _ _))
  · exact Storage.getItem_removeItem_same _ _

/-- C7, as stated, fails: when the remote call is rejected, `logoutHandler`
leaves the logged-in browser `loggedInClient` with its token in memory and in
storage, still logged in. -/
theorem logoutHandler_keeps_session_on_failure :
    (logoutHandler loggedInClient (Settled.rejected (JVal.str "Network Error"))).state.token
        = JVal.str "jwt-1" ∧
      (logoutHandler loggedInClient (Settled.rejected (JVal.str "Network Error"))).storage.getItem
        "token" = JVal.str "jwt-1" ∧
      userIsLoggedIn
        (logoutHandler loggedInClient (Settled.rejected (JVal.str "Network Error"))).state
        = true :=
  ⟨rfl, rfl, rfl⟩

/-- C7, amended: when the remote session-termination call succeeds,
`logoutHandler` clears the provider, so that the token and profile cells are
`null`, the storage keys are removed and nobody is logged in; when the call
fails, the error is logged and both the cells and the storage stay as they
were. -/
theorem logoutHandler_outcomes (c : Client) (res err : JVal) :
    (logoutHandler c (Settled.fulfilled res) = clearStogeHandler c ∧
      (logoutHandler c (Settled.fulfilled res)).state.token = JVal.null ∧
      (logoutHandler c (Settled.fulfilled res)).state.email = JVal.null ∧
      (logoutHandler c (Settled.fulfilled res)).state.firstName = JVal.null ∧
      (logoutHandler c (Settled.fulfilled res)).state.lastName = JVal.null ∧
      (logoutHandler c (Settled.fulfilled res)).state.avatarUrl = JVal.null ∧
      (logoutHandler c (Settled.fulfilled res)).state.role = JVal.null ∧
      (∀ k ∈ authKeys,
        (logoutHandler c (Settled.fulfilled res)).storage.getItem k = JVal.null) ∧
      userIsLoggedIn (logoutHandler c (Settled.fulfilled res)).state = false) ∧
    ((logoutHandler c (Settled.rejected err)).state = c.state ∧
      (logoutHandler c (Settled.rejected err)).storage = c.storage ∧
      (logoutHandler c (Settled.rejected err)).console = c.console ++ [err]) := by
  refine ⟨⟨rfl, ?_⟩, rfl, rfl, rfl⟩
  exact clearStogeHandler_clears c

/-- What a reload reads back after `loginHandler`: the string conversion of
each value that was passed. -/
theorem AuthContextProvider_after_login (c : Client)
    (token firstName lastName avatarUrl email role : JVal) :
    AuthContextProvider (loginHandler c token firstName lastName avatarUrl email role).storage
      = { token := JVal.str token.toStr
          email := JVal.str email.toStr
          firstName := JVal.str firstName.toStr
          lastName := JVal.str lastName.toStr
          avatarUrl := JVal.str avatarUrl.toStr
          role := JVal.str role.toStr } := by
  simp [AuthContextProvider, loginHandler, Storage.getItem_setItem_same,
    Storage.getItem_setItem_other]

/-- C8, as stated, fails: after a login that passed `undefined` as the avatar,
the provider holds `undefined` while a reload reads the string `"undefined"`
back from storage. -/
theorem reload_differs_for_undefined_avatar :
    noAvatarClient.state.avatarUrl = JVal.undefined ∧
      (AuthContextProvider noAvatarClient.storage).avatarUrl = JVal.str "undefined" ∧
      AuthContextProvider noAvatarClient.storage ≠ noAvatarClient.state := by
  refine ⟨rfl, rfl, fun h => ?_⟩
  have h2 : (AuthContextProvider noAvatarClient.storage).avatarUrl
      = noAvatarClient.state.avatarUrl := by rw [h]
  have h3 : (AuthContextProvider noAvatarClient.storage).avatarUrl = JVal.str "undefined" := rfl
  have h4 : noAvatarClient.state.avatarUrl = JVal.undefined := rfl
  rw [h3, h4] at h2
  exact JVal.noConfusion h2

/-- C8, amended: for every string token and string profile values passed to
`loginHandler`, whatever the browser held before, mounting the provider afresh
from storage gives exactly the state `loginHandler` set: the same token, email,
first name, last name, avatar, role and the same `isLoggedIn`. -/
theorem login_reload_roundtrip (c : Client)
    (token firstName lastName avatarUrl email role : String) :
    AuthContextProvider
        (loginHandler c (JVal.str token) (JVal.str firstName) (JVal.str lastName)
          (JVal.str avatarUrl) (JVal.str email) (JVal.str role)).storage
      = (loginHandler c (JVal.str token) (JVal.str firstName) (JVal.str lastName)
          (JVal.str avatarUrl) (JVal.str email) (JVal.str role)).state ∧
    (loginHandler c (JVal.str token) (JVal.str firstName) (JVal.str lastName)
        (JVal.str avatarUrl) (JVal.str email) (JVal.str role)).state
      = { token := JVal.str token
          email := JVal.str email
          firstName := JVal.str firstName
          lastName := JVal.str lastName
          avatarUrl := JVal.str avatarUrl
          role := JVal.str role } ∧
    userIsLoggedIn (AuthContextProvider
        (loginHandler c (JVal.str token) (JVal.str firstName) (JVal.str lastName)
          (JVal.str avatarUrl) (JVal.str email) (JVal.str role)).storage)
      = userIsLoggedIn (loginHandler c (JVal.str token) (JVal.str firstName)
          (JVal.str lastName) (JVal.str avatarUrl) (JVal.str email) (JVal.str role)).state := by
  have hst : (loginHandler c (JVal.str token) (JVal.str firstName) (JVal.str lastName)
        (JVal.str avatarUrl) (JVal.str email) (JVal.str role)).state
      = { token := JVal.str token
          email := JVal.str email
          firstName := JVal.str firstName
          lastName := JVal.str lastName
          avatarUrl := JVal.str avatarUrl
          role := JVal.str role } := rfl
  have hre := AuthContextProvider_after_login c (JVal.str token) (JVal.str firstName)
    (JVal.str lastName) (JVal.str avatarUrl) (JVal.str email) (JVal.str role)
  have hs : ∀ s : String, (JVal.str s).toStr = s := fun s => by simp [JVal.toStr]
  rw [hs, hs, hs, hs, hs, hs] at hre
  refine ⟨hre.trans hst.symm, hst, ?_⟩
  rw [hre, hst]
